import Mathlib

/-
Verification development for the Smart-Event seating planner.
The data model and the state-engine operations are shallowly embedded from
src/types/index.ts (types and the zustand store); the round-table geometry
from src/components/tables/RoundTable.tsx; the export/import handlers from
src/App.tsx.  The uuidv4() calls of the source are modelled by a fresh-id
counter: operation n of the counter yields the identifier freshId n, so ids
generated by the engine are distinct, as uuids are.
-/

namespace SeatingPlanner

/-- Guest record, from the Guest interface of src/types/index.ts. -/
structure Guest where
  id : String
  firstName : String
  lastName : String
  middleName : Option String
  fullName : String
deriving DecidableEq, Repr, Inhabited

/-- Seat record, from the Seat interface of src/types/index.ts. -/
structure Seat where
  id : String
  guestId : Option String
  position : Nat
deriving DecidableEq, Repr, Inhabited

/-- One amphitheater row, from the TableRow interface. -/
structure TableRow where
  seatCount : Nat
deriving DecidableEq, Repr, Inhabited

/-- Table shape tag, from the TableType union. -/
inductive TableType where
  | round
  | square
  | rectangle
  | theater
  | amphitheater
deriving DecidableEq, Repr, Inhabited

/-- Table record, from the Table interface of src/types/index.ts. -/
structure Table where
  id : String
  type : TableType
  name : String
  x : Int
  y : Int
  rotation : Int
  seats : List Seat
  rows : Option Nat
  seatsPerRow : Option Nat
  rowConfigs : Option (List TableRow)
  width : Int
  height : Int
deriving DecidableEq, Repr, Inhabited

/-- The Layout aggregate, from the SeatingLayout interface. -/
structure SeatingLayout where
  tables : List Table
  guests : List Guest
  unassignedGuests : List String
deriving DecidableEq, Repr, Inhabited

/-- Fresh identifier number n; models the nth uuidv4() call of a run. -/
def freshId (n : Nat) : String := "u" ++ Nat.repr n

/-- JS truthy-or-default on an optional number: models (v OrElse d) where 0,
undefined and null all fall back to the default, as the source writes
rows OR 5 and seatsPerRow OR 8 with the JS disjunction operator. -/
def jsOrDefault (o : Option Nat) (d : Nat) : Nat :=
  match o with
  | some n => if n = 0 then d else n
  | none => d

/-- createSeats of src/types/index.ts: for theater and amphitheater the seat
count is rows times seatsPerRow (defaults 5 and 8), for the other shapes it is
seatsCount; each seat gets a fresh id, no guest, and position index i.
Returns the seats together with the advanced fresh-id counter. -/
def createSeats (type : TableType) (seatsCount : Nat) (rows seatsPerRow : Option Nat)
    (fresh : Nat) : List Seat × Nat :=
  if type = TableType.theater ∨ type = TableType.amphitheater then
    let actualRows := jsOrDefault rows 5
    let actualSeatsPerRow := jsOrDefault seatsPerRow 8
    let totalSeats := actualRows * actualSeatsPerRow
    ((List.range totalSeats).map (fun i =>
      { id := freshId (fresh + i), guestId := none, position := i }),
     fresh + totalSeats)
  else
    ((List.range seatsCount).map (fun i =>
      { id := freshId (fresh + i), guestId := none, position := i }),
     fresh + seatsCount)

/-- getDefaultTableSize of src/types/index.ts: width, height, seat count. -/
def getDefaultTableSize (type : TableType) : Int × Int × Nat :=
  match type with
  | TableType.round => (160, 160, 8)
  | TableType.square => (140, 140, 8)
  | TableType.rectangle => (200, 120, 10)
  | TableType.theater => (400, 300, 40)
  | TableType.amphitheater => (400, 300, 40)

/-- Result of parseGuestName. -/
structure ParsedName where
  firstName : String
  lastName : String
  middleName : Option String
deriving DecidableEq, Repr, Inhabited

/-- Model of the JS String.prototype.trim used throughout the source:
strip leading and trailing whitespace. -/
def jsTrim (s : String) : String :=
  String.mk (((s.data.dropWhile Char.isWhitespace).reverse.dropWhile
    Char.isWhitespace).reverse)

/-- Helper for nameTokens: walk the characters, collecting maximal
non-whitespace runs.  The accumulator holds the current run reversed. -/
def splitWsAux : List Char → List Char → List String
  | [], acc => if acc.isEmpty then [] else [String.mk acc.reverse]
  | c :: cs, acc =>
    if c.isWhitespace then
      (if acc.isEmpty then [] else [String.mk acc.reverse]) ++ splitWsAux cs []
    else splitWsAux cs (c :: acc)

/-- The whitespace tokenisation used by parseGuestName.  The source trims,
splits on whitespace runs and drops empty pieces; that combination returns
exactly the maximal non-whitespace runs of the string, computed here by a
single structural pass. -/
def nameTokens (s : String) : List String := splitWsAux s.data []

/-- Model of the JS Array.prototype.join with a single-space separator,
as used for the middle-name tokens. -/
def joinSpaceSep : List String → String
  | [] => ""
  | [x] => x
  | x :: xs => x ++ " " ++ joinSpaceSep xs

/-- parseGuestName of src/types/index.ts: 1 token gives first name only,
2 tokens give last then first, 3 or more give last, first and the remaining
tokens joined by single spaces as the middle name. -/
def parseGuestName (fullName : String) : ParsedName :=
  match nameTokens fullName with
  | [] => { firstName := "", lastName := "", middleName := none }
  | [p0] => { firstName := p0, lastName := "", middleName := none }
  | [p0, p1] => { firstName := p1, lastName := p0, middleName := none }
  | p0 :: p1 :: rest =>
    { firstName := p1, lastName := p0,
      middleName := some (joinSpaceSep rest) }

/-- addGuest of the store: build the guest from the trimmed fields, recompute
the full name (last first, then the middle name when it is non-blank), append
the guest to the guest list and its id to unassignedGuests. -/
def addGuest (firstName lastName : String) (middleName : Option String)
    (state : SeatingLayout) (fresh : Nat) : SeatingLayout × Nat :=
  let midTrim := middleName.map jsTrim
  let hasMid : Bool := match midTrim with
    | some m => m ≠ ""
    | none => false
  let formattedFullName :=
    if hasMid then
      jsTrim lastName ++ " " ++ jsTrim firstName ++ " " ++ (midTrim.getD "")
    else
      jsTrim (jsTrim lastName ++ " " ++ jsTrim firstName)
  let guest : Guest :=
    { id := freshId fresh,
      firstName := jsTrim firstName,
      lastName := jsTrim lastName,
      middleName := if hasMid then midTrim else none,
      fullName := formattedFullName }
  ({ state with
      guests := state.guests ++ [guest],
      unassignedGuests := state.unassignedGuests ++ [guest.id] },
   fresh + 1)

/-- Seat transform used by removeGuest and assignGuestToSeat: clear the seat
when it holds the given guest. -/
def clearSeat (guestId : String) (s : Seat) : Seat :=
  if s.guestId = some guestId then { s with guestId := none } else s

/-- Seat transform used by assignGuestToSeat and moveGuestBetweenSeats: put
the given guest into the seat with the given id. -/
def setSeat (guestId seatId : String) (s : Seat) : Seat :=
  if s.id = seatId then { s with guestId := some guestId } else s

/-- Seat transform used by unassignGuestFromSeat and moveGuestBetweenSeats:
clear the seat with the given id. -/
def vacateSeat (seatId : String) (s : Seat) : Seat :=
  if s.id = seatId then { s with guestId := none } else s

/-- removeGuest of the store: clear the guest from every seat, drop it from
the guest list and from unassignedGuests. -/
def removeGuest (guestId : String) (state : SeatingLayout) : SeatingLayout :=
  { tables := state.tables.map (fun t =>
      { t with seats := t.seats.map (clearSeat guestId) }),
    guests := state.guests.filter (fun g => g.id ≠ guestId),
    unassignedGuests := state.unassignedGuests.filter (fun id => id ≠ guestId) }

/-- Build one imported guest from a raw name, as the loop body of the
bulk-import operation does: parse the trimmed name and recompute the
full-name field. -/
def mkImportedGuest (name : String) (gid : String) : Guest :=
  let parsed := parseGuestName (jsTrim name)
  let formattedFullName :=
    match parsed.middleName with
    | some m => parsed.lastName ++ " " ++ parsed.firstName ++ " " ++ m
    | none => jsTrim (parsed.lastName ++ " " ++ parsed.firstName)
  { id := gid,
    firstName := parsed.firstName,
    lastName := parsed.lastName,
    middleName := parsed.middleName,
    fullName := formattedFullName }

/-- The forEach loop of the bulk-import operation over the non-blank names,
consuming one fresh id per created guest. -/
def buildImported : List String → Nat → List Guest
  | [], _ => []
  | n :: ns, c => mkImportedGuest n (freshId c) :: buildImported ns (c + 1)

/-- importGuests of the store: skip blank names, create one guest per
remaining name, append all new guests and all their ids. -/
def importGuests (names : List String) (state : SeatingLayout) (fresh : Nat) :
    SeatingLayout × Nat :=
  let nonblank := names.filter (fun n => jsTrim n ≠ "")
  let newGuests := buildImported nonblank fresh
  ({ state with
      guests := state.guests ++ newGuests,
      unassignedGuests := state.unassignedGuests ++ newGuests.map Guest.id },
   fresh + nonblank.length)

/-- addTable of the store: shape defaults for size and seat count, rotation 0,
rows and seatsPerRow 5 and 8 for the two theater-style shapes, rowConfigs of
five rows of eight for the amphitheater, and freshly created seats.  The
table id is generated before the seat ids, as in the source object literal. -/
def addTable (type : TableType) (name : String) (x y : Int)
    (state : SeatingLayout) (fresh : Nat) : SeatingLayout × Nat :=
  let d := getDefaultTableSize type
  let isTheaterStyle := type = TableType.theater ∨ type = TableType.amphitheater
  let tableId := freshId fresh
  let sc := createSeats type d.2.2 (some 5) (some 8) (fresh + 1)
  let newTable : Table :=
    { id := tableId, type := type, name := name, x := x, y := y,
      rotation := 0, width := d.1, height := d.2.1,
      rows := if isTheaterStyle then some 5 else none,
      seatsPerRow := if isTheaterStyle then some 8 else none,
      rowConfigs := if type = TableType.amphitheater
        then some (List.replicate 5 { seatCount := 8 }) else none,
      seats := sc.1 }
  ({ state with tables := state.tables ++ [newTable] }, sc.2)

/-- removeTable of the store: drop the table and append the ids of the guests
that were seated at it to unassignedGuests. -/
def removeTable (tableId : String) (state : SeatingLayout) : SeatingLayout :=
  let table := state.tables.find? (fun t => t.id = tableId)
  let assignedGuestIds :=
    match table with
    | some t => t.seats.filterMap Seat.guestId
    | none => []
  { state with
      tables := state.tables.filter (fun t => t.id ≠ tableId),
      unassignedGuests := state.unassignedGuests ++ assignedGuestIds }

/-- updateTablePosition of the store. -/
def updateTablePosition (tableId : String) (x y : Int)
    (state : SeatingLayout) : SeatingLayout :=
  { state with tables := state.tables.map (fun t =>
      if t.id = tableId then { t with x := x, y := y } else t) }

/-- updateTableRotation of the store. -/
def updateTableRotation (tableId : String) (rotation : Int)
    (state : SeatingLayout) : SeatingLayout :=
  { state with tables := state.tables.map (fun t =>
      if t.id = tableId then { t with rotation := rotation } else t) }

/-- The partial configuration record accepted by updateTableConfig; a none
field models a field left undefined by the caller. -/
structure TableConfigUpdate where
  name : Option String := none
  x : Option Int := none
  y : Option Int := none
  rotation : Option Int := none
  width : Option Int := none
  height : Option Int := none
  rows : Option Nat := none
  seatsPerRow : Option Nat := none
  seats : Option Nat := none
  rowConfigs : Option (List TableRow) := none
deriving Repr, Inhabited

/-- Sum of the per-row seat counts, as the reduce over rowConfigs computes. -/
def sumRowConfigs (rcs : List TableRow) : Nat :=
  rcs.foldl (fun sum r => sum + r.seatCount) 0

/-- The rowConfigs branch of the seat regeneration in updateTableConfig: seat
i keeps the id and the guest of old seat i while one exists, and gets a fresh
id and no guest beyond the old length; position is always i. -/
def rebuildSeatsKeepIds (existing : List Seat) (seatsCount : Nat)
    (fresh : Nat) : List Seat × Nat :=
  ((List.range seatsCount).map (fun i =>
    match existing.get? i with
    | some e => { id := e.id, guestId := e.guestId, position := i }
    | none => { id := freshId (fresh + (i - existing.length)), guestId := none,
                position := i }),
   fresh + (seatsCount - existing.length))

/-- The guest-copying loop of updateTableConfig: for every index below the
length of both lists, the new seat takes the guest of the old seat at the
same index. -/
def copyGuestsFrom : List Seat → List Seat → List Seat
  | _, [] => []
  | [], news => news
  | e :: es, n :: ns => { n with guestId := e.guestId } :: copyGuestsFrom es ns

/-- updateTableConfig of the store.  A missing table is a no-op.  Simple
field updates apply first; when any of seats, rows, seatsPerRow or rowConfigs
is supplied the seat list is regenerated: with rowConfigs present, seat ids
and guests are kept index-wise up to the old length (fresh ids beyond);
without rowConfigs, seats are recreated by createSeats and the guests of the
old seats are copied index-wise up to the shorter length.  Nothing is ever
appended to unassignedGuests by this operation. -/
def updateTableConfig (tableId : String) (config : TableConfigUpdate)
    (state : SeatingLayout) (fresh : Nat) : SeatingLayout × Nat :=
  match state.tables.find? (fun t => t.id = tableId) with
  | none => (state, fresh)
  | some table =>
    let t1 : Table :=
      { table with
          name := config.name.getD table.name,
          x := config.x.getD table.x,
          y := config.y.getD table.y,
          rotation := config.rotation.getD table.rotation,
          width := config.width.getD table.width,
          height := config.height.getD table.height,
          rows := match config.rows with
            | some r => some r
            | none => table.rows,
          seatsPerRow := match config.seatsPerRow with
            | some sp => some sp
            | none => table.seatsPerRow,
          rowConfigs := match config.rowConfigs with
            | some rc => some rc
            | none => table.rowConfigs }
    let regen := config.seats.isSome || config.rows.isSome ||
      config.seatsPerRow.isSome || config.rowConfigs.isSome
    let res : Table × Nat :=
      if regen then
        match config.rowConfigs with
        | some rcs =>
          let seatsCount := config.seats.getD (sumRowConfigs rcs)
          let sc := rebuildSeatsKeepIds table.seats seatsCount fresh
          ({ t1 with seats := sc.1 }, sc.2)
        | none =>
          let seatsCount := config.seats.getD table.seats.length
          let rows := match config.rows with
            | some r => some r
            | none => table.rows
          let seatsPerRow := match config.seatsPerRow with
            | some sp => some sp
            | none => table.seatsPerRow
          let sc := createSeats table.type seatsCount rows seatsPerRow fresh
          ({ t1 with seats := copyGuestsFrom table.seats sc.1 }, sc.2)
      else (t1, fresh)
    ({ state with tables := state.tables.map (fun t =>
        if t.id = tableId then res.1 else t) },
     res.2)

/-- Table transform of the first pass of assignGuestToSeat: clear the guest
from every seat of the table. -/
def clearGuestInTable (guestId : String) (t : Table) : Table :=
  { t with seats := t.seats.map (clearSeat guestId) }

/-- Table transform of the second pass of assignGuestToSeat: on the table
with the right id, put the guest into the seat with the right id. -/
def assignSeatInTable (guestId tableId seatId : String) (t : Table) : Table :=
  if t.id = tableId then
    { t with seats := t.seats.map (setSeat guestId seatId) }
  else t

/-- assignGuestToSeat of the store: first clear the guest from every seat of
every table, then put it into the seat with the given id of the table with
the given id, and drop it from unassignedGuests.  Nothing checks that the
table or the seat exists. -/
def assignGuestToSeat (guestId tableId seatId : String)
    (state : SeatingLayout) : SeatingLayout :=
  let tablesWithGuestRemoved := state.tables.map (clearGuestInTable guestId)
  let updatedTables :=
    tablesWithGuestRemoved.map (assignSeatInTable guestId tableId seatId)
  { state with
      tables := updatedTables,
      unassignedGuests := state.unassignedGuests.filter (fun id => id ≠ guestId) }

/-- unassignGuestFromSeat of the store: when the addressed seat exists and
holds a guest, clear it and append the guest to unassignedGuests; otherwise
return the state unchanged. -/
def unassignGuestFromSeat (tableId seatId : String)
    (state : SeatingLayout) : SeatingLayout :=
  let table := state.tables.find? (fun t => t.id = tableId)
  let seat := table.bind (fun t => t.seats.find? (fun s => s.id = seatId))
  match seat.bind Seat.guestId with
  | none => state
  | some guestId =>
    { state with
        tables := state.tables.map (fun t =>
          if t.id = tableId then
            { t with seats := t.seats.map (vacateSeat seatId) }
          else t),
        unassignedGuests := state.unassignedGuests ++ [guestId] }

/-- The per-table transform of moveGuestBetweenSeats: a table matching the
source id gets the source seat cleared and, because the source checks the
source id first and returns, is never treated as a destination; otherwise a
table matching the destination id gets the guest put into the destination
seat. -/
def moveTableStep (guestId fromTableId fromSeatId toTableId
    toSeatId : String) (t : Table) : Table :=
  if t.id = fromTableId then
    { t with seats := t.seats.map (vacateSeat fromSeatId) }
  else if t.id = toTableId then
    { t with seats := t.seats.map (setSeat guestId toSeatId) }
  else t

/-- The per-table update of the displaced-guest record in
moveGuestBetweenSeats: the branch order mirrors the source, so a table
matching the source id never records a displaced guest, and each further
table matching the destination id overwrites the record. -/
def displacedStep (fromTableId toTableId toSeatId : String)
    (acc : Option String) (t : Table) : Option String :=
  if t.id = fromTableId then acc
  else if t.id = toTableId then
    (t.seats.find? (fun s => s.id = toSeatId)).bind Seat.guestId
  else acc

/-- moveGuestBetweenSeats of the store: apply the per-table transform to
every table, record the displaced guest by folding the per-table update over
the same list (the source assigns a closure variable during one traversal,
so the last write wins), and append the displaced guest to unassignedGuests
when it exists and differs from the moving guest. -/
def moveGuestBetweenSeats (guestId fromTableId fromSeatId toTableId
    toSeatId : String) (state : SeatingLayout) : SeatingLayout :=
  let updatedTables := state.tables.map
    (moveTableStep guestId fromTableId fromSeatId toTableId toSeatId)
  let displacedGuestId := state.tables.foldl
    (displacedStep fromTableId toTableId toSeatId) none
  let newUnassigned :=
    match displacedGuestId with
    | some d =>
      if d ≠ guestId then state.unassignedGuests ++ [d]
      else state.unassignedGuests
    | none => state.unassignedGuests
  { state with tables := updatedTables, unassignedGuests := newUnassigned }

/-- clearLayout of the store: remove every table and append every seated
guest to unassignedGuests; the guest list is untouched. -/
def clearLayout (state : SeatingLayout) : SeatingLayout :=
  let allAssignedGuestIds :=
    ((state.tables.map Table.seats).flatten).filterMap Seat.guestId
  { state with
      tables := [],
      unassignedGuests := state.unassignedGuests ++ allAssignedGuestIds }

/-- resetAll of the store: wipe everything. -/
def resetAll (_state : SeatingLayout) : SeatingLayout :=
  { tables := [], guests := [], unassignedGuests := [] }

/-- One user intent, one per mutation operation the store exposes. -/
inductive Op where
  | addGuest (firstName lastName : String) (middleName : Option String)
  | removeGuest (guestId : String)
  | importGuests (names : List String)
  | addTable (type : TableType) (name : String) (x y : Int)
  | removeTable (tableId : String)
  | updateTablePosition (tableId : String) (x y : Int)
  | updateTableRotation (tableId : String) (rotation : Int)
  | updateTableConfig (tableId : String) (config : TableConfigUpdate)
  | assignGuestToSeat (guestId tableId seatId : String)
  | unassignGuestFromSeat (tableId seatId : String)
  | moveGuestBetweenSeats (guestId fromTableId fromSeatId toTableId
      toSeatId : String)
  | clearLayout
  | resetAll

/-- The store state: the layout plus the fresh-id counter that models the
sequence of uuidv4() results. -/
structure StoreState where
  layout : SeatingLayout
  nextId : Nat
deriving Repr, Inhabited

/-- Dispatch one intent to the corresponding store operation. -/
def applyOp : Op → StoreState → StoreState
  | Op.addGuest f l m, st =>
    let r := addGuest f l m st.layout st.nextId
    { layout := r.1, nextId := r.2 }
  | Op.removeGuest gid, st => { st with layout := removeGuest gid st.layout }
  | Op.importGuests names, st =>
    let r := importGuests names st.layout st.nextId
    { layout := r.1, nextId := r.2 }
  | Op.addTable ty name x y, st =>
    let r := addTable ty name x y st.layout st.nextId
    { layout := r.1, nextId := r.2 }
  | Op.removeTable tid, st => { st with layout := removeTable tid st.layout }
  | Op.updateTablePosition tid x y, st =>
    { st with layout := updateTablePosition tid x y st.layout }
  | Op.updateTableRotation tid rot, st =>
    { st with layout := updateTableRotation tid rot st.layout }
  | Op.updateTableConfig tid cfg, st =>
    let r := updateTableConfig tid cfg st.layout st.nextId
    { layout := r.1, nextId := r.2 }
  | Op.assignGuestToSeat gid tid sid, st =>
    { st with layout := assignGuestToSeat gid tid sid st.layout }
  | Op.unassignGuestFromSeat tid sid, st =>
    { st with layout := unassignGuestFromSeat tid sid st.layout }
  | Op.moveGuestBetweenSeats gid ft fs tt ts, st =>
    { st with layout := moveGuestBetweenSeats gid ft fs tt ts st.layout }
  | Op.clearLayout, st => { st with layout := clearLayout st.layout }
  | Op.resetAll, st => { st with layout := resetAll st.layout }

/-- The empty store the persisted state starts from. -/
def initialState : StoreState :=
  { layout := { tables := [], guests := [], unassignedGuests := [] },
    nextId := 0 }

/-- Run a sequence of intents from the empty store; its results are exactly
the reachable store states. -/
def runOps (ops : List Op) : StoreState :=
  ops.foldl (fun st op => applyOp op st) initialState

/-- How many seats across the whole layout reference the given guest id. -/
def seatCountOf (l : SeatingLayout) (gid : String) : Nat :=
  (l.tables.map (fun t =>
    (t.seats.filter (fun s => s.guestId = some gid)).length)).sum

/-- How many entries of unassignedGuests equal the given guest id. -/
def unassignedCountOf (l : SeatingLayout) (gid : String) : Nat :=
  (l.unassignedGuests.filter (fun id => id = gid)).length

/-- The placement half of the central Layout invariant, for one guest:
exactly once unassigned and seated nowhere, or never unassigned and seated
exactly once. -/
def guestPlacementOk (l : SeatingLayout) (gid : String) : Prop :=
  (unassignedCountOf l gid = 1 ∧ seatCountOf l gid = 0) ∨
  (unassignedCountOf l gid = 0 ∧ seatCountOf l gid = 1)

instance (l : SeatingLayout) (gid : String) :
    Decidable (guestPlacementOk l gid) := by
  unfold guestPlacementOk
  infer_instance

/-- The central Layout invariant: every guest of the guest list is placed
consistently. -/
def layoutInvariant (l : SeatingLayout) : Prop :=
  ∀ g ∈ l.guests, guestPlacementOk l g.id

instance (l : SeatingLayout) : Decidable (layoutInvariant l) := by
  unfold layoutInvariant
  infer_instance

/-- The seat count a table should have according to its current layout
parameters: rows times seatsPerRow for the uniform grid, the sum of the
per-row counts for the amphitheater, the explicit seat count for the
perimeter shapes. -/
def impliedSeatCount (t : Table) : Nat :=
  match t.type with
  | TableType.theater => (t.rows.getD 0) * (t.seatsPerRow.getD 0)
  | TableType.amphitheater => sumRowConfigs (t.rowConfigs.getD [])
  | _ => t.seats.length

/-- Consecutive position numbering of a seat list: the seat stored at list
index i carries position i. -/
def positionsIndexed (ss : List Seat) : Prop :=
  ∀ i : Nat, ∀ h : i < ss.length, (ss.get ⟨i, h⟩).position = i

/-- The seat-numbering invariant of one table. -/
def seatsIndexed (t : Table) : Prop :=
  positionsIndexed t.seats

/-- The seat-numbering invariant of a layout. -/
def tablesIndexed (l : SeatingLayout) : Prop :=
  ∀ t ∈ l.tables, seatsIndexed t

/-- First table of the layout with the given id. -/
def findTable (l : SeatingLayout) (tid : String) : Option Table :=
  l.tables.find? (fun t => t.id = tid)

/-- First seat of the table with the given id. -/
def findSeat (t : Table) (sid : String) : Option Seat :=
  t.seats.find? (fun s => s.id = sid)

/-- Guest reference of the addressed seat: none when table or seat is
missing, some g otherwise, where g is the guest slot of the seat. -/
def seatGuestIn (l : SeatingLayout) (tid sid : String) :
    Option (Option String) :=
  ((findTable l tid).bind (fun t => findSeat t sid)).map Seat.guestId

/-- The export document handleExport of src/App.tsx serialises: the three
layout lists plus a timestamp string. -/
structure ExportDocument where
  tables : List Table
  guests : List Guest
  unassignedGuests : List String
  exportDate : String
deriving Repr, Inhabited

/-- handleExport of src/App.tsx: build the document from the live layout and
download it; the live layout itself is not touched, so it is returned
unchanged next to the document. -/
def handleExport (l : SeatingLayout) (now : String) :
    ExportDocument × SeatingLayout :=
  ({ tables := l.tables, guests := l.guests,
     unassignedGuests := l.unassignedGuests, exportDate := now }, l)

/-- Outcome reported by the import handler. -/
inductive ImportOutcome where
  | success
  | failure
deriving DecidableEq, Repr

/-- handleImport of src/App.tsx: the file text is run through JSON.parse
inside try/catch only to decide which toast to show; no branch writes the
store, so the live layout is returned unchanged in both cases.  The Bool
argument models whether the file text parses as JSON. -/
def handleImport (parses : Bool) (l : SeatingLayout) :
    SeatingLayout × ImportOutcome :=
  if parses then (l, ImportOutcome.success) else (l, ImportOutcome.failure)

/-! Helper lemmas about the seat and table transforms. -/

theorem clearSeat_idem (g : String) (s : Seat) :
    clearSeat g (clearSeat g s) = clearSeat g s := by
  obtain ⟨sid, sg, sp⟩ := s
  simp only [clearSeat]
  split_ifs with h1 h2 <;> simp_all

theorem set_clear_set_clear (g sid : String) (s : Seat) :
    setSeat g sid (clearSeat g (setSeat g sid (clearSeat g s))) =
    setSeat g sid (clearSeat g s) := by
  obtain ⟨i, sg, sp⟩ := s
  simp only [clearSeat, setSeat]
  split_ifs <;> simp_all

theorem assign_table_pass_idem (g tid sid : String) (t : Table) :
    assignSeatInTable g tid sid (clearGuestInTable g
      (assignSeatInTable g tid sid (clearGuestInTable g t))) =
    assignSeatInTable g tid sid (clearGuestInTable g t) := by
  obtain ⟨i0, ty, nm, x, y, rot, seats, rows, spr, rc, w, ht⟩ := t
  by_cases h : i0 = tid
  · simp only [assignSeatInTable, clearGuestInTable, h, if_pos, if_true,
      eq_self_iff_true, List.map_map, Table.mk.injEq, and_true, true_and]
    apply List.map_congr_left
    intro s _
    exact set_clear_set_clear g sid s
  · simp only [assignSeatInTable, clearGuestInTable, if_neg h, List.map_map,
      Table.mk.injEq, and_true, true_and, eq_self_iff_true]
    apply List.map_congr_left
    intro s _
    exact clearSeat_idem g s

theorem vacateSeat_id (sid : String) (s : Seat) :
    (vacateSeat sid s).id = s.id := by
  unfold vacateSeat
  split <;> rfl

theorem setSeat_id (g sid : String) (s : Seat) :
    (setSeat g sid s).id = s.id := by
  unfold setSeat
  split <;> rfl

theorem moveTableStep_id (g ft fs tt ts : String) (t : Table) :
    (moveTableStep g ft fs tt ts t).id = t.id := by
  unfold moveTableStep
  split_ifs <;> rfl

theorem findTable_map_id_preserving {F : Table → Table}
    (hF : ∀ t, (F t).id = t.id) (l : List Table) (tid : String) :
    (l.map F).find? (fun t => t.id = tid) =
      (l.find? (fun t => t.id = tid)).map F := by
  have hp : ((fun t : Table => decide (t.id = tid)) ∘ F) =
      (fun t : Table => decide (t.id = tid)) :=
    funext fun t => by simp [Function.comp, hF]
  rw [List.find?_map]
  exact congrArg _ (congrArg (fun p => List.find? p l) hp)

theorem findSeat_map_id_preserving {f : Seat → Seat}
    (hf : ∀ s, (f s).id = s.id) (l : List Seat) (sid : String) :
    (l.map f).find? (fun s => s.id = sid) =
      (l.find? (fun s => s.id = sid)).map f := by
  have hp : ((fun s : Seat => decide (s.id = sid)) ∘ f) =
      (fun s : Seat => decide (s.id = sid)) :=
    funext fun s => by simp [Function.comp, hf]
  rw [List.find?_map]
  exact congrArg _ (congrArg (fun p => List.find? p l) hp)

theorem displaced_foldl_skip (ft tt ts : String) :
    ∀ (l : List Table) (acc : Option String),
    (∀ t ∈ l, t.id ≠ tt) →
    l.foldl (displacedStep ft tt ts) acc = acc := by
  intro l
  induction l with
  | nil => intro acc _; rfl
  | cons t rest ih =>
    intro acc h
    have ht : t.id ≠ tt := h t (by simp)
    have step : displacedStep ft tt ts acc t = acc := by
      unfold displacedStep
      by_cases h1 : t.id = ft
      · simp [h1]
      · by_cases h2 : t.id = tt
        · exact absurd h2 ht
        · simp [h1, h2]
    rw [List.foldl_cons, step]
    exact ih acc (fun x hx => h x (by simp [hx]))

theorem find?_table_split {p : Table → Bool} :
    ∀ {l : List Table} {a : Table}, l.find? p = some a →
    ∃ as bs, l = as ++ a :: bs ∧ ∀ x ∈ as, p x = false := by
  intro l
  induction l with
  | nil => intro a h; simp [List.find?] at h
  | cons x xs ih =>
    intro a h
    by_cases hx : p x
    · rw [List.find?_cons_of_pos _ hx] at h
      obtain rfl := Option.some.inj h
      exact ⟨[], xs, rfl, by simp⟩
    · rw [List.find?_cons_of_neg _ (by simpa using hx)] at h
      obtain ⟨as, bs, rfl, hw⟩ := ih h
      exact ⟨x :: as, bs, rfl, by
        intro y hy
        rcases List.mem_cons.mp hy with rfl | hy2
        · simpa using hx
        · exact hw y hy2⟩

theorem displaced_eq (l : SeatingLayout) (T1 T2 S2 : String) (t2 : Table)
    (hnd : (l.tables.map Table.id).Nodup)
    (ht2 : findTable l T2 = some t2) (hTT : T1 ≠ T2) :
    l.tables.foldl (displacedStep T1 T2 S2) none =
      (t2.seats.find? (fun s => s.id = S2)).bind Seat.guestId := by
  have hid2 : t2.id = T2 := by simpa using List.find?_some ht2
  obtain ⟨as, bs, hsplit, has⟩ := find?_table_split ht2
  have hbs : ∀ x ∈ bs, x.id ≠ T2 := by
    rw [hsplit] at hnd
    simp only [List.map_append, List.map_cons, List.nodup_append,
      List.nodup_cons] at hnd
    intro x hx hxe
    exact hnd.2.1.1 (by
      rw [← hid2] at hxe
      exact hxe ▸ List.mem_map_of_mem Table.id hx)
  rw [hsplit, List.foldl_append, List.foldl_cons]
  rw [displaced_foldl_skip T1 T2 S2 as none
    (fun x hx => by simpa using has x hx)]
  have hstep : displacedStep T1 T2 S2 none t2 =
      (t2.seats.find? (fun s => s.id = S2)).bind Seat.guestId := by
    unfold displacedStep
    rw [if_neg (by rw [hid2]; exact fun h => hTT h.symm), if_pos hid2]
  rw [hstep]
  exact displaced_foldl_skip T1 T2 S2 bs _ hbs

theorem clearSeat_position (g : String) (s : Seat) :
    (clearSeat g s).position = s.position := by
  unfold clearSeat
  split <;> rfl

theorem setSeat_position (g sid : String) (s : Seat) :
    (setSeat g sid s).position = s.position := by
  unfold setSeat
  split <;> rfl

theorem vacateSeat_position (sid : String) (s : Seat) :
    (vacateSeat sid s).position = s.position := by
  unfold vacateSeat
  split <;> rfl

theorem positionsIndexed_map {f : Seat → Seat}
    (hf : ∀ s, (f s).position = s.position) {ss : List Seat}
    (h : positionsIndexed ss) : positionsIndexed (ss.map f) := by
  intro i hi
  rw [List.get_eq_getElem, List.getElem_map, hf]
  have h2 := h i (by simpa using hi)
  rw [List.get_eq_getElem] at h2
  exact h2

theorem positionsIndexed_range_map {f : Nat → Seat}
    (hf : ∀ i, (f i).position = i) (n : Nat) :
    positionsIndexed ((List.range n).map f) := by
  intro i hi
  rw [List.get_eq_getElem, List.getElem_map, List.getElem_range, hf]

theorem createSeats_indexed (type : TableType) (scount : Nat)
    (rows spr : Option Nat) (fresh : Nat) :
    positionsIndexed (createSeats type scount rows spr fresh).1 := by
  unfold createSeats
  split
  · exact positionsIndexed_range_map (fun i => rfl) _
  · exact positionsIndexed_range_map (fun i => rfl) _

theorem rebuildSeatsKeepIds_indexed (ex : List Seat) (n fresh : Nat) :
    positionsIndexed (rebuildSeatsKeepIds ex n fresh).1 := by
  unfold rebuildSeatsKeepIds
  apply positionsIndexed_range_map
  intro i
  cases h : ex.get? i <;> simp [h]

theorem copyGuestsFrom_length :
    ∀ (es ns : List Seat), (copyGuestsFrom es ns).length = ns.length := by
  intro es
  induction es with
  | nil => intro ns; cases ns <;> rfl
  | cons e es ih =>
    intro ns
    cases ns with
    | nil => rfl
    | cons n ns => simp [copyGuestsFrom, ih]

theorem copyGuestsFrom_get_position :
    ∀ (es ns : List Seat) (i : Nat)
      (h1 : i < (copyGuestsFrom es ns).length) (h2 : i < ns.length),
      ((copyGuestsFrom es ns).get ⟨i, h1⟩).position = (ns.get ⟨i, h2⟩).position := by
  intro es
  induction es with
  | nil =>
    intro ns i h1 h2
    cases ns with
    | nil => exact absurd h2 (by simp)
    | cons n ns => rfl
  | cons e es ih =>
    intro ns i h1 h2
    cases ns with
    | nil => exact absurd h2 (by simp)
    | cons n ns =>
      cases i with
      | zero => rfl
      | succ j =>
        have h1' : j < (copyGuestsFrom es ns).length := by
          have := h1
          simp [copyGuestsFrom] at this
          simpa using this
        exact ih ns j h1' (by simpa using h2)

theorem copyGuestsFrom_indexed (es : List Seat) {ns : List Seat}
    (h : positionsIndexed ns) : positionsIndexed (copyGuestsFrom es ns) := by
  intro i h1
  have h2 : i < ns.length := by
    rw [← copyGuestsFrom_length es ns]
    exact h1
  rw [copyGuestsFrom_get_position es ns i h1 h2]
  exact h i h2

theorem seatsIndexed_mapSeats {f : Seat → Seat}
    (hf : ∀ s, (f s).position = s.position) {t : Table}
    (h : seatsIndexed t) : seatsIndexed { t with seats := t.seats.map f } :=
  positionsIndexed_map hf h

theorem tablesIndexed_applyOp (op : Op) (st : StoreState)
    (h : tablesIndexed st.layout) : tablesIndexed (applyOp op st).layout := by
  cases op with
  | addGuest fn ln mn => intro t ht; exact h t ht
  | removeGuest gid =>
    intro t ht
    simp only [applyOp, removeGuest] at ht
    obtain ⟨t0, ht0, rfl⟩ := List.mem_map.mp ht
    exact seatsIndexed_mapSeats (clearSeat_position gid) (h t0 ht0)
  | importGuests names => intro t ht; exact h t ht
  | addTable ty nm x y =>
    intro t ht
    simp only [applyOp, addTable] at ht
    rcases List.mem_append.mp ht with hl | hr
    · exact h t hl
    · have : t = _ := List.mem_singleton.mp hr
      subst this
      exact createSeats_indexed ty _ (some 5) (some 8) _
  | removeTable tid =>
    intro t ht
    simp only [applyOp, removeTable] at ht
    exact h t (List.mem_filter.mp ht).1
  | updateTablePosition tid x y =>
    intro t ht
    simp only [applyOp, updateTablePosition] at ht
    obtain ⟨t0, ht0, rfl⟩ := List.mem_map.mp ht
    by_cases hc : t0.id = tid
    · simp only [hc, if_true, eq_self_iff_true, if_pos]
      exact h t0 ht0
    · simp only [if_neg hc]
      exact h t0 ht0
  | updateTableRotation tid rot =>
    intro t ht
    simp only [applyOp, updateTableRotation] at ht
    obtain ⟨t0, ht0, rfl⟩ := List.mem_map.mp ht
    by_cases hc : t0.id = tid
    · simp only [hc, if_true, eq_self_iff_true, if_pos]
      exact h t0 ht0
    · simp only [if_neg hc]
      exact h t0 ht0
  | updateTableConfig tid cfg =>
    intro t ht
    simp only [applyOp] at ht
    unfold updateTableConfig at ht
    cases hfind : st.layout.tables.find? (fun tb => tb.id = tid) with
    | none =>
      rw [hfind] at ht
      exact h t ht
    | some table =>
      rw [hfind] at ht
      obtain ⟨t0, ht0, rfl⟩ := List.mem_map.mp ht
      by_cases hc : t0.id = tid
      · simp only [hc, if_true, eq_self_iff_true, if_pos]
        split
        · split
          · exact rebuildSeatsKeepIds_indexed _ _ _
          · exact copyGuestsFrom_indexed _ (createSeats_indexed _ _ _ _ _)
        · exact h table (List.mem_of_find?_eq_some hfind)
      · simp only [if_neg hc]
        exact h t0 ht0
  | assignGuestToSeat gid tid sid =>
    intro t ht
    simp only [applyOp, assignGuestToSeat, List.map_map] at ht
    obtain ⟨t0, ht0, rfl⟩ := List.mem_map.mp ht
    simp only [Function.comp]
    unfold assignSeatInTable
    split
    · exact seatsIndexed_mapSeats (setSeat_position gid sid)
        (seatsIndexed_mapSeats (clearSeat_position gid) (h t0 ht0))
    · exact seatsIndexed_mapSeats (clearSeat_position gid) (h t0 ht0)
  | unassignGuestFromSeat tid sid =>
    intro t ht
    simp only [applyOp] at ht
    unfold unassignGuestFromSeat at ht
    simp only [] at ht
    split at ht
    · exact h t ht
    · obtain ⟨t0, ht0, rfl⟩ := List.mem_map.mp ht
      split
      · exact seatsIndexed_mapSeats (vacateSeat_position sid) (h t0 ht0)
      · exact h t0 ht0
  | moveGuestBetweenSeats gid ft fs tt ts =>
    intro t ht
    simp only [applyOp, moveGuestBetweenSeats] at ht
    obtain ⟨t0, ht0, rfl⟩ := List.mem_map.mp ht
    unfold moveTableStep
    split
    · exact seatsIndexed_mapSeats (vacateSeat_position fs) (h t0 ht0)
    · split
      · exact seatsIndexed_mapSeats (setSeat_position gid ts) (h t0 ht0)
      · exact h t0 ht0
  | clearLayout =>
    intro t ht
    simp only [applyOp, clearLayout] at ht
    exact absurd ht (by simp)
  | resetAll =>
    intro t ht
    simp only [applyOp, resetAll] at ht
    exact absurd ht (by simp)

theorem tablesIndexed_runOps (ops : List Op) :
    tablesIndexed (runOps ops).layout := by
  have base : tablesIndexed initialState.layout := by
    intro t ht
    exact absurd ht (by simp [initialState])
  have main : ∀ (l : List Op) (st : StoreState), tablesIndexed st.layout →
      tablesIndexed (l.foldl (fun s op => applyOp op s) st).layout := by
    intro l
    induction l with
    | nil => intro st hst; exact hst
    | cons op rest ih =>
      intro st hst
      rw [List.foldl_cons]
      exact ih _ (tablesIndexed_applyOp op st hst)
  exact main ops initialState base

/-! Geometry of the round table, from getSeatPosition of RoundTable.tsx.
The component computes with JS floating point; the model idealises the
arithmetic over the real numbers.  The marker size 36 and the margin 8 are
the constants of the component. -/

/-- Seat marker size of the round-table component. -/
noncomputable def roundSeatSize : ℝ := 36

/-- Radius of the circle through the seat centres: table radius plus half a
marker plus the fixed margin 8. -/
noncomputable def roundSeatRadius (tableWidth : ℝ) : ℝ :=
  tableWidth / 2 + roundSeatSize / 2 + 8

/-- Centre of the seat circle in container coordinates: half the container
size, which is the table diameter plus two markers plus 32. -/
noncomputable def roundCenterOffset (tableWidth : ℝ) : ℝ :=
  (tableWidth + roundSeatSize * 2 + 32) / 2

/-- Angle of seat index out of total, as getSeatPosition computes it. -/
noncomputable def roundSeatAngle (index total : ℕ) : ℝ :=
  ((index : ℝ) / (total : ℝ)) * (2 * Real.pi) - Real.pi / 2

/-- getSeatPosition of RoundTable.tsx: the top-left corner of the marker of
the seat with the given index. -/
noncomputable def getSeatPosition (tableWidth : ℝ) (index total : ℕ) : ℝ × ℝ :=
  (roundCenterOffset tableWidth +
     roundSeatRadius tableWidth * Real.cos (roundSeatAngle index total) -
     roundSeatSize / 2,
   roundCenterOffset tableWidth +
     roundSeatRadius tableWidth * Real.sin (roundSeatAngle index total) -
     roundSeatSize / 2)

/-- Centre of the seat marker: the top-left corner plus half the marker. -/
noncomputable def roundSeatCenter (tableWidth : ℝ) (index total : ℕ) : ℝ × ℝ :=
  ((getSeatPosition tableWidth index total).1 + roundSeatSize / 2,
   (getSeatPosition tableWidth index total).2 + roundSeatSize / 2)

/-! Claims. -/

/-- Failing input for claim C1: add a guest, add a round table, seat the
guest at the first seat, then move the guest to another seat of the same
table.  The move clears the source seat but never writes the destination,
so the guest ends up neither unassigned nor seated. -/
def c1FailingOps : List Op :=
  [Op.addGuest "Ivan" "Ivanov" none,
   Op.addTable TableType.round "T" 0 0,
   Op.assignGuestToSeat "u0" "u1" "u2",
   Op.moveGuestBetweenSeats "u0" "u1" "u2" "u1" "u3"]

/-- Claim C1: the central Layout invariant (every guest either exactly once
unassigned or in exactly one seat, never both, never neither) is claimed to
hold in every reachable state.  The code violates it: after the reachable
sequence c1FailingOps the only guest is in the guest list but is neither in
unassignedGuests nor in any seat.  The spec states the invariant as the
design intent, so this is a code bug, exhibited here by evaluation. -/
theorem c1_layout_invariant_code_bug :
    (runOps c1FailingOps).layout.guests.map Guest.id = ["u0"] ∧
    unassignedCountOf (runOps c1FailingOps).layout "u0" = 0 ∧
    seatCountOf (runOps c1FailingOps).layout "u0" = 0 ∧
    ¬ layoutInvariant (runOps c1FailingOps).layout := by
  decide

/-- Failing input for claim C2: four guests seated at seats 0 to 3 of a
round table with eight seats, then the table is resized to three seats. -/
def c2FailingOps : List Op :=
  [Op.addGuest "g0" "f0" none, Op.addGuest "g1" "f1" none,
   Op.addGuest "g2" "f2" none, Op.addGuest "g3" "f3" none,
   Op.addTable TableType.round "T" 0 0,
   Op.assignGuestToSeat "u0" "u4" "u5",
   Op.assignGuestToSeat "u1" "u4" "u6",
   Op.assignGuestToSeat "u2" "u4" "u7",
   Op.assignGuestToSeat "u3" "u4" "u8",
   Op.updateTableConfig "u4" { seats := some 3 }]

/-- The same scenario resized to six seats instead of three, for the part of
the resize claim that the code does satisfy. -/
def c2ShrinkTo6Ops : List Op :=
  [Op.addGuest "g0" "f0" none, Op.addGuest "g1" "f1" none,
   Op.addGuest "g2" "f2" none, Op.addGuest "g3" "f3" none,
   Op.addTable TableType.round "T" 0 0,
   Op.assignGuestToSeat "u0" "u4" "u5",
   Op.assignGuestToSeat "u1" "u4" "u6",
   Op.assignGuestToSeat "u2" "u4" "u7",
   Op.assignGuestToSeat "u3" "u4" "u8",
   Op.updateTableConfig "u4" { seats := some 6 }]

/-- Claim C2: on a seat-count change, seats below the new length retain
their guests index-wise and every guest at an index at or beyond the new
length is appended to unassignedGuests.  The retention half holds (resizing
8 to 6 keeps guests 0 to 3 and leaves seats 4 and 5 free; resizing to 3
keeps guests 0 to 2), but the release half is false: after shrinking to 3
the guest u3 sits in no seat and is NOT in unassignedGuests, so it is
silently dropped, contradicting the spec sentence that seat regeneration
never silently drops a guest.  Code bug, exhibited by evaluation. -/
theorem c2_resize_preservation_code_bug :
    (runOps c2ShrinkTo6Ops).layout.tables.headI.seats.map Seat.guestId =
      [some "u0", some "u1", some "u2", some "u3", none, none] ∧
    (runOps c2FailingOps).layout.tables.headI.seats.map Seat.guestId =
      [some "u0", some "u1", some "u2"] ∧
    "u3" ∈ (runOps c2FailingOps).layout.guests.map Guest.id ∧
    "u3" ∉ (runOps c2FailingOps).layout.unassignedGuests ∧
    seatCountOf (runOps c2FailingOps).layout "u3" = 0 := by
  decide

/-- Single-table layout on which the same-table case of the displacement
claim fails: guest A at seat s1 and guest B at seat s2 of one table. -/
def c3SameTableLayout : SeatingLayout :=
  { tables :=
      [{ id := "t",
         type := TableType.round,
         name := "T",
         x := 0, y := 0, rotation := 0,
         width := 160, height := 160,
         rows := none, seatsPerRow := none, rowConfigs := none,
         seats :=
           [{ id := "s1", guestId := some "A", position := 0 },
            { id := "s2", guestId := some "B", position := 1 }] }],
    guests :=
      [{ id := "A", firstName := "A", lastName := "", middleName := none,
         fullName := "A" },
       { id := "B", firstName := "B", lastName := "", middleName := none,
         fullName := "B" }],
    unassignedGuests := [] }

/-- Claim C3, counterexample: with source and destination on the SAME table,
moving A from s1 onto the seat s2 occupied by B does not put A into s2, does
not displace B to unassignedGuests, and loses A entirely: the per-table
update matches the source-table id first and returns, so the destination
branch never runs.  The claimed conclusions fail at this concrete input. -/
theorem c3_same_table_counterexample :
    ¬ (seatGuestIn (moveGuestBetweenSeats "A" "t" "s1" "t" "s2"
          c3SameTableLayout) "t" "s2" = some (some "A") ∧
       seatGuestIn (moveGuestBetweenSeats "A" "t" "s1" "t" "s2"
          c3SameTableLayout) "t" "s1" = some none ∧
       "B" ∈ (moveGuestBetweenSeats "A" "t" "s1" "t" "s2"
          c3SameTableLayout).unassignedGuests) ∧
    seatGuestIn (moveGuestBetweenSeats "A" "t" "s1" "t" "s2"
      c3SameTableLayout) "t" "s2" = some (some "B") ∧
    seatCountOf (moveGuestBetweenSeats "A" "t" "s1" "t" "s2"
      c3SameTableLayout) "A" = 0 ∧
    "A" ∉ (moveGuestBetweenSeats "A" "t" "s1" "t" "s2"
      c3SameTableLayout).unassignedGuests := by
  decide

/-- Claim C3 as amended: displacement correctness of moveGuestBetweenSeats
holds whenever the source table and the destination table are DIFFERENT
tables (the same-table case fails, see the counterexample).  In a layout
with pairwise distinct table ids, if guest A occupies seat S1 of table T1,
guest B occupies seat S2 of table T2, A and B differ and T1 and T2 differ,
then after moveGuestBetweenSeats the seat S2 holds exactly A, the seat S1 is
guest-free, and B appears in unassignedGuests. -/
theorem c3_displacement_distinct_tables (l : SeatingLayout)
    (A B T1 S1 T2 S2 : String) (t1 t2 : Table) (s1 s2 : Seat)
    (hnd : (l.tables.map Table.id).Nodup)
    (hTT : T1 ≠ T2)
    (ht1 : findTable l T1 = some t1) (hs1 : findSeat t1 S1 = some s1)
    (hg1 : s1.guestId = some A)
    (ht2 : findTable l T2 = some t2) (hs2 : findSeat t2 S2 = some s2)
    (hg2 : s2.guestId = some B)
    (hAB : A ≠ B) :
    seatGuestIn (moveGuestBetweenSeats A T1 S1 T2 S2 l) T2 S2 =
      some (some A) ∧
    seatGuestIn (moveGuestBetweenSeats A T1 S1 T2 S2 l) T1 S1 = some none ∧
    B ∈ (moveGuestBetweenSeats A T1 S1 T2 S2 l).unassignedGuests := by
  have hid1 : t1.id = T1 := by simpa using List.find?_some ht1
  have hid2 : t2.id = T2 := by simpa using List.find?_some ht2
  have hsid1 : s1.id = S1 := by simpa using List.find?_some hs1
  have hsid2 : s2.id = S2 := by simpa using List.find?_some hs2
  have hF : ∀ t, (moveTableStep A T1 S1 T2 S2 t).id = t.id :=
    moveTableStep_id A T1 S1 T2 S2
  have htabs : (moveGuestBetweenSeats A T1 S1 T2 S2 l).tables =
      l.tables.map (moveTableStep A T1 S1 T2 S2) := rfl
  have hdisp : l.tables.foldl (displacedStep T1 T2 S2) none = some B := by
    rw [displaced_eq l T1 T2 S2 t2 hnd ht2 hTT]
    unfold findSeat at hs2
    rw [hs2]
    simpa using hg2
  refine ⟨?_, ?_, ?_⟩
  · unfold seatGuestIn findTable
    rw [htabs, findTable_map_id_preserving hF l.tables T2]
    unfold findTable at ht2
    rw [ht2]
    have hFt2 : moveTableStep A T1 S1 T2 S2 t2 =
        { t2 with seats := t2.seats.map (setSeat A S2) } := by
      unfold moveTableStep
      rw [if_neg (by rw [hid2]; exact fun h => hTT h.symm), if_pos hid2]
    simp only [Option.map_some', Option.some_bind, hFt2]
    unfold findSeat
    simp only []
    rw [findSeat_map_id_preserving (setSeat_id A S2) t2.seats S2]
    unfold findSeat at hs2
    rw [hs2]
    have hset : setSeat A S2 s2 = { s2 with guestId := some A } := by
      unfold setSeat
      rw [if_pos hsid2]
    rw [Option.map_some', hset]
    rfl
  · unfold seatGuestIn findTable
    rw [htabs, findTable_map_id_preserving hF l.tables T1]
    unfold findTable at ht1
    rw [ht1]
    have hFt1 : moveTableStep A T1 S1 T2 S2 t1 =
        { t1 with seats := t1.seats.map (vacateSeat S1) } := by
      unfold moveTableStep
      rw [if_pos hid1]
    simp only [Option.map_some', Option.some_bind, hFt1]
    unfold findSeat
    simp only []
    rw [findSeat_map_id_preserving (vacateSeat_id S1) t1.seats S1]
    unfold findSeat at hs1
    rw [hs1]
    have hvac : vacateSeat S1 s1 = { s1 with guestId := none } := by
      unfold vacateSeat
      rw [if_pos hsid1]
    rw [Option.map_some', hvac]
    rfl
  · have hunas : (moveGuestBetweenSeats A T1 S1 T2 S2 l).unassignedGuests =
        l.unassignedGuests ++ [B] := by
      unfold moveGuestBetweenSeats
      simp only [hdisp]
      rw [if_pos (fun h => hAB h.symm)]
    rw [hunas]
    simp

/-- Two-table layout witnessing the amended displacement claim: guest A at
seat sa of table ta, guest B at seat sb of table tb. -/
def c3WitnessLayout : SeatingLayout :=
  { tables :=
      [{ id := "ta",
         type := TableType.round,
         name := "TA",
         x := 0, y := 0, rotation := 0,
         width := 160, height := 160,
         rows := none, seatsPerRow := none, rowConfigs := none,
         seats := [{ id := "sa", guestId := some "A", position := 0 }] },
       { id := "tb",
         type := TableType.round,
         name := "TB",
         x := 0, y := 0, rotation := 0,
         width := 160, height := 160,
         rows := none, seatsPerRow := none, rowConfigs := none,
         seats := [{ id := "sb", guestId := some "B", position := 0 }] }],
    guests :=
      [{ id := "A", firstName := "A", lastName := "", middleName := none,
         fullName := "A" },
       { id := "B", firstName := "B", lastName := "", middleName := none,
         fullName := "B" }],
    unassignedGuests := [] }

/-- Claim C3, witness: the amended displacement theorem applied to the
concrete two-table layout. -/
theorem c3_displacement_witness :
    seatGuestIn (moveGuestBetweenSeats "A" "ta" "sa" "tb" "sb"
      c3WitnessLayout) "tb" "sb" = some (some "A") ∧
    seatGuestIn (moveGuestBetweenSeats "A" "ta" "sa" "tb" "sb"
      c3WitnessLayout) "ta" "sa" = some none ∧
    "B" ∈ (moveGuestBetweenSeats "A" "ta" "sa" "tb" "sb"
      c3WitnessLayout).unassignedGuests :=
  c3_displacement_distinct_tables c3WitnessLayout "A" "B" "ta" "sa" "tb" "sb"
    { id := "ta",
      type := TableType.round,
      name := "TA",
      x := 0, y := 0, rotation := 0,
      width := 160, height := 160,
      rows := none, seatsPerRow := none, rowConfigs := none,
      seats := [{ id := "sa", guestId := some "A", position := 0 }] }
    { id := "tb",
      type := TableType.round,
      name := "TB",
      x := 0, y := 0, rotation := 0,
      width := 160, height := 160,
      rows := none, seatsPerRow := none, rowConfigs := none,
      seats := [{ id := "sb", guestId := some "B", position := 0 }] }
    { id := "sa", guestId := some "A", position := 0 }
    { id := "sb", guestId := some "B", position := 0 }
    (by decide) (by decide) (by decide) (by decide) (by decide) (by decide)
    (by decide) (by decide) (by decide)

/-- Base layout for claim C4: one unassigned guest u0 and one round table
u1 whose seats are u2 to u9. -/
def c4BaseOps : List Op :=
  [Op.addGuest "A" "B" none, Op.addTable TableType.round "T" 0 0]

/-- Claim C4: operations on nonexistent identifiers are claimed to be
no-ops.  That is true of unassignGuestFromSeat, updateTableConfig,
removeTable and removeGuest, but false of assignGuestToSeat: called with a
seat id that does not exist, it still strips the guest from unassignedGuests
(and from any seat it held) without placing it anywhere, so the layout
changes and the guest is dropped.  The spec states the no-op behaviour as
the design intent, so this is a code bug, exhibited by evaluation. -/
theorem c4_assign_nonexistent_code_bug :
    assignGuestToSeat "u0" "u1" "missing" (runOps c4BaseOps).layout ≠
      (runOps c4BaseOps).layout ∧
    "u0" ∉ (assignGuestToSeat "u0" "u1" "missing"
      (runOps c4BaseOps).layout).unassignedGuests ∧
    seatCountOf (assignGuestToSeat "u0" "u1" "missing"
      (runOps c4BaseOps).layout) "u0" = 0 ∧
    unassignGuestFromSeat "u1" "missing" (runOps c4BaseOps).layout =
      (runOps c4BaseOps).layout ∧
    removeTable "missing" (runOps c4BaseOps).layout =
      (runOps c4BaseOps).layout ∧
    removeGuest "missing" (runOps c4BaseOps).layout =
      (runOps c4BaseOps).layout ∧
    updateTableConfig "missing" {} (runOps c4BaseOps).layout 99 =
      ((runOps c4BaseOps).layout, 99) := by
  decide

/-- Failing input for claim C5: a default amphitheater (5 rows of 8, 40
seats) whose row count is updated to 3 without touching rowConfigs, exactly
what the table-configuration panel sends. -/
def c5FailingOps : List Op :=
  [Op.addTable TableType.amphitheater "A" 0 0,
   Op.updateTableConfig "u0" { rows := some 3 }]

/-- Claim C5: seats.length is claimed to equal the seat count implied by the
layout parameters after every mutation (amphitheater: the sum of the per-row
counts of rowConfigs).  The code violates it: updating only the row count of
an amphitheater regenerates the seats as rows times seatsPerRow (24) while
rowConfigs still sums to 40.  Code bug, exhibited by evaluation on a
reachable state. -/
theorem c5_seat_count_invariant_code_bug :
    (runOps c5FailingOps).layout.tables.headI.seats.length = 24 ∧
    impliedSeatCount (runOps c5FailingOps).layout.tables.headI = 40 ∧
    ¬ (∀ t ∈ (runOps c5FailingOps).layout.tables,
        t.seats.length = impliedSeatCount t) := by
  decide

/-- Claim C6: assignGuestToSeat is idempotent: calling it twice with the
same guest, table and seat yields the same layout as calling it once, for
every starting layout. -/
theorem c6_assign_idempotent (g tid sid : String) (state : SeatingLayout) :
    assignGuestToSeat g tid sid (assignGuestToSeat g tid sid state) =
    assignGuestToSeat g tid sid state := by
  unfold assignGuestToSeat
  simp only [List.filter_filter, List.map_map]
  congr 1
  · apply List.map_congr_left
    intro t _
    exact assign_table_pass_idem g tid sid t
  · apply List.filter_congr
    intro x _
    simp

/-- Claim C7: guest-name parsing by whitespace-token count (1 token: first
name only; 2 tokens: last then first; 3 or more: last, first, middle from
the joined rest), bulk import skips blank entries, creates one guest per
non-blank entry and appends all new guest ids to unassignedGuests; in
particular the three-name Cyrillic import of the spec produces exactly the
three described guests, all unassigned. -/
theorem c7_import_guests_parsing :
    (∀ s p0, nameTokens s = [p0] →
      parseGuestName s =
        { firstName := p0,
          lastName := "",
          middleName := none }) ∧
    (∀ s p0 p1, nameTokens s = [p0, p1] →
      parseGuestName s =
        { firstName := p1,
          lastName := p0,
          middleName := none }) ∧
    (∀ s p0 p1 p2 rest, nameTokens s = p0 :: p1 :: p2 :: rest →
      parseGuestName s =
        { firstName := p1,
          lastName := p0,
          middleName := some (joinSpaceSep (p2 :: rest)) }) ∧
    (∀ (l : SeatingLayout) (c : Nat),
      importGuests ["Иванов Иван", "Петров Петр Сергеевич", "Сидорова"] l c =
        ({ l with
            guests := l.guests ++
              [{ id := freshId c,
                 firstName := "Иван",
                 lastName := "Иванов",
                 middleName := none,
                 fullName := "Иванов Иван" },
               { id := freshId (c + 1),
                 firstName := "Петр",
                 lastName := "Петров",
                 middleName := some "Сергеевич",
                 fullName := "Петров Петр Сергеевич" },
               { id := freshId (c + 2),
                 firstName := "Сидорова",
                 lastName := "",
                 middleName := none,
                 fullName := "Сидорова" }],
            unassignedGuests := l.unassignedGuests ++
              [freshId c, freshId (c + 1), freshId (c + 2)] }, c + 3)) ∧
    (∀ (l : SeatingLayout) (c : Nat), importGuests ["", "   "] l c = (l, c)) := by
  refine ⟨?_, ?_, ?_, ?_, ?_⟩
  · intro s p0 h
    unfold parseGuestName
    rw [h]
  · intro s p0 p1 h
    unfold parseGuestName
    rw [h]
  · intro s p0 p1 p2 rest h
    unfold parseGuestName
    rw [h]
  · intro l c
    rfl
  · intro l c
    show ({ l with
              guests := l.guests ++ [],
              unassignedGuests := l.unassignedGuests ++ [] }, c + 0) = (l, c)
    cases l
    simp

/-- Claim C7, witness: the parsing rules applied to the three concrete
names of the spec scenario. -/
theorem c7_import_guests_witness :
    parseGuestName "Сидорова" =
      { firstName := "Сидорова",
        lastName := "",
        middleName := none } ∧
    parseGuestName "Иванов Иван" =
      { firstName := "Иван",
        lastName := "Иванов",
        middleName := none } ∧
    parseGuestName "Петров Петр Сергеевич" =
      { firstName := "Петр",
        lastName := "Петров",
        middleName := some "Сергеевич" } := by
  have h := c7_import_guests_parsing
  exact ⟨h.1 "Сидорова" "Сидорова" (by decide),
    h.2.1 "Иванов Иван" "Иванов" "Иван" (by decide),
    h.2.2.1 "Петров Петр Сергеевич" "Петров" "Петр" "Сергеевич" [] (by decide)⟩

/-- Claim C8: for a round table with at least one seat, the centre of each
seat marker lies at distance seat-radius from the container centre (first
conjunct, for every width, index and count), the seat angle is
(i/n) times 2 pi minus pi/2 (second conjunct), for four seats the angles of
seats 0 to 3 are -90, 0, 90 and 180 degrees, for diameter 160 the four seat
centres are the corresponding concrete points at radius 106 from the centre
(132, 132), and the computation is a pure function, so identical inputs give
identical coordinates. -/
theorem c8_round_geometry (w : ℝ) (n i : ℕ) (hn : 1 ≤ n) :
    ((roundSeatCenter w i n).1 - roundCenterOffset w) ^ 2 +
      ((roundSeatCenter w i n).2 - roundCenterOffset w) ^ 2 =
      (roundSeatRadius w) ^ 2 ∧
    roundSeatAngle i n = ((i : ℝ) / (n : ℝ)) * (2 * Real.pi) - Real.pi / 2 ∧
    roundSeatAngle 0 4 = -(Real.pi / 2) ∧
    roundSeatAngle 1 4 = 0 ∧
    roundSeatAngle 2 4 = Real.pi / 2 ∧
    roundSeatAngle 3 4 = Real.pi ∧
    roundSeatCenter 160 0 4 = (132, 26) ∧
    roundSeatCenter 160 1 4 = (238, 132) ∧
    roundSeatCenter 160 2 4 = (132, 238) ∧
    roundSeatCenter 160 3 4 = (26, 132) ∧
    roundSeatCenter w i n = roundSeatCenter w i n := by
  have ha0 : roundSeatAngle 0 4 = -(Real.pi / 2) := by
    unfold roundSeatAngle
    push_cast
    ring
  have ha1 : roundSeatAngle 1 4 = 0 := by
    unfold roundSeatAngle
    push_cast
    ring
  have ha2 : roundSeatAngle 2 4 = Real.pi / 2 := by
    unfold roundSeatAngle
    push_cast
    ring
  have ha3 : roundSeatAngle 3 4 = Real.pi := by
    unfold roundSeatAngle
    push_cast
    ring
  have hx : (roundSeatCenter w i n).1 - roundCenterOffset w =
      roundSeatRadius w * Real.cos (roundSeatAngle i n) := by
    unfold roundSeatCenter getSeatPosition
    ring
  have hy : (roundSeatCenter w i n).2 - roundCenterOffset w =
      roundSeatRadius w * Real.sin (roundSeatAngle i n) := by
    unfold roundSeatCenter getSeatPosition
    ring
  refine ⟨?_, rfl, ha0, ha1, ha2, ha3, ?_, ?_, ?_, ?_, rfl⟩
  · rw [hx, hy]
    have h := Real.cos_sq_add_sin_sq (roundSeatAngle i n)
    linear_combination (roundSeatRadius w) ^ 2 * h
  · unfold roundSeatCenter getSeatPosition
    rw [ha0, Real.cos_neg, Real.sin_neg, Real.cos_pi_div_two,
      Real.sin_pi_div_two]
    unfold roundCenterOffset roundSeatRadius roundSeatSize
    norm_num
  · unfold roundSeatCenter getSeatPosition
    rw [ha1, Real.cos_zero, Real.sin_zero]
    unfold roundCenterOffset roundSeatRadius roundSeatSize
    norm_num
  · unfold roundSeatCenter getSeatPosition
    rw [ha2, Real.cos_pi_div_two, Real.sin_pi_div_two]
    unfold roundCenterOffset roundSeatRadius roundSeatSize
    norm_num
  · unfold roundSeatCenter getSeatPosition
    rw [ha3, Real.cos_pi, Real.sin_pi]
    unfold roundCenterOffset roundSeatRadius roundSeatSize
    norm_num

/-- Claim C8, witness: the geometry theorem applied to seat 1 of 4 on the
160-wide table. -/
theorem c8_round_geometry_witness :
    roundSeatAngle 1 4 = 0 ∧
    ((roundSeatCenter 160 1 4).1 - roundCenterOffset 160) ^ 2 +
      ((roundSeatCenter 160 1 4).2 - roundCenterOffset 160) ^ 2 =
      (roundSeatRadius 160) ^ 2 := by
  have h := c8_round_geometry 160 4 1 (by decide)
  exact ⟨h.2.2.2.1, h.1⟩

/-- Claim C9: exporting builds a document carrying exactly the tables, the
guests and the unassigned list of the live layout without touching it, and
importing any document, well-formed or malformed, leaves the live layout
unchanged (the import handler of the source only validates parseability and
never writes the store), so the export-import round trip trivially leaves
the live layout with identical tables, guests and unassigned set. -/
theorem c9_export_import_round_trip (l : SeatingLayout) (now : String)
    (parses : Bool) :
    (handleExport l now).1.tables = l.tables ∧
    (handleExport l now).1.guests = l.guests ∧
    (handleExport l now).1.unassignedGuests = l.unassignedGuests ∧
    (handleExport l now).2 = l ∧
    (handleImport parses (handleExport l now).2).1 = l := by
  refine ⟨rfl, rfl, rfl, rfl, ?_⟩
  unfold handleImport
  split <;> rfl

/-- Claim C10: in every reachable store state, every table has its seats
numbered consecutively: the seat stored at list index i carries position i;
the proof goes by induction over the operation sequence, and the operations
that create or regenerate seats re-establish the numbering. -/
theorem c10_seats_position_indexed (ops : List Op) (t : Table)
    (ht : t ∈ (runOps ops).layout.tables) (i : Nat)
    (hi : i < t.seats.length) :
    (t.seats.get ⟨i, hi⟩).position = i :=
  tablesIndexed_runOps ops t ht i hi

/-- Claim C10, witness: seat index 2 of the single round table created by
one addTable carries position 2. -/
theorem c10_seats_position_witness :
    (((runOps [Op.addTable TableType.round "T" 0 0]).layout.tables.headI.seats.get
      ⟨2, by decide⟩).position) = 2 :=
  c10_seats_position_indexed [Op.addTable TableType.round "T" 0 0]
    (runOps [Op.addTable TableType.round "T" 0 0]).layout.tables.headI
    (by decide) 2 (by decide)

end SeatingPlanner
